import Mathlib

/-
  Verification development for the Autopilot API Orchestrator
  (src/scripts/orchestrator/*.py).

  The Python modules are shallowly embedded: each relevant method is
  translated into an executable Lean definition over explicit state
  (file system, conversation, cost tracker).  Floating-point dollar
  amounts are modelled as rationals; Python strings as Lean `String`.
-/

namespace Autopilot

/-! ### Python string primitives

Helpers mirroring the Python `str` operations used by the sources.
Unicode line separators other than `'\n'` and the rarer whitespace
code points are not modelled; the sources only ever produce `'\n'`. -/

/-- `str.strip()`: drop leading and trailing whitespace. -/
def pyStrip (s : String) : String :=
  ⟨((s.data.dropWhile Char.isWhitespace).reverse.dropWhile Char.isWhitespace).reverse⟩

/-- `str.startswith`, computed on the character list. -/
def strStartsWith (s pre : String) : Bool := pre.data.isPrefixOf s.data

/-- `str.endswith`, computed on the character list. -/
def strEndsWith (s suf : String) : Bool := suf.data.isSuffixOf s.data

/-- Character-count prefix of a string (Python slicing `s[:n]`). -/
def strTake (s : String) (n : Nat) : String := ⟨s.data.take n⟩

/-- `str.lower` restricted to ASCII case mapping. -/
def strToLower (s : String) : String := ⟨s.data.map Char.toLower⟩

/-- Split a character list at every occurrence of one character. -/
def splitOnChar (ch : Char) : List Char → List (List Char)
  | [] => [[]]
  | c :: rest =>
    match splitOnChar ch rest with
    | [] => [[]]
    | cur :: done => if c = ch then [] :: cur :: done else (c :: cur) :: done

/-- Worker for `pySplitWs`; `acc` holds the current word reversed. -/
def splitWsGo : List Char → List Char → List String
  | [], acc => if acc.isEmpty then [] else [String.mk acc.reverse]
  | c :: cs, acc =>
    if c.isWhitespace then
      if acc.isEmpty then splitWsGo cs [] else String.mk acc.reverse :: splitWsGo cs []
    else splitWsGo cs (c :: acc)

/-- `str.split()` with no argument: split on whitespace runs, no empty parts. -/
def pySplitWs (s : String) : List String := splitWsGo s.data []

/-- Worker for `countOcc`: number of non-overlapping occurrences of the
nonempty `needle`, scanning left to right (Python `str.count`).  The fuel
argument makes the recursion structural; every step consumes at least one
character, so fuel equal to the haystack length never runs out. -/
def countOccGo (needle : List Char) : Nat → List Char → Nat
  | _, [] => 0
  | 0, _ => 0
  | fuel + 1, c :: rest =>
    if needle.isPrefixOf (c :: rest) then
      1 + countOccGo needle fuel (rest.drop (needle.length - 1))
    else countOccGo needle fuel rest

/-- Python `hay.count(needle)`; for an empty needle Python returns `len+1`. -/
def countOcc (hay needle : String) : Nat :=
  if needle.data.isEmpty then hay.data.length + 1
  else countOccGo needle.data hay.data.length hay.data

/-- Python `needle in hay` (substring containment): holds exactly when the
non-overlapping occurrence count is positive. -/
def strContains (hay needle : String) : Bool := countOcc hay needle != 0

/-- Worker for `pySplitOn`; `acc` holds the current piece reversed.  Fuel
as in `countOccGo`. -/
def splitOnGo (sep : List Char) : Nat → List Char → List Char → List (List Char)
  | _, [], acc => [acc.reverse]
  | 0, _, acc => [acc.reverse]
  | fuel + 1, c :: rest, acc =>
    if sep.isPrefixOf (c :: rest) then
      acc.reverse :: splitOnGo sep fuel (rest.drop (sep.length - 1)) []
    else splitOnGo sep fuel rest (c :: acc)

/-- Python `s.split(sep)` for a nonempty separator, keeping empty pieces. -/
def pySplitOn (s sep : String) : List String :=
  (splitOnGo sep.data s.data.length s.data []).map String.mk

/-- Worker replacing every non-overlapping occurrence (nonempty `old`).
Fuel as in `countOccGo`. -/
def replaceAllGo (old new : List Char) : Nat → List Char → List Char
  | _, [] => []
  | 0, rest => rest
  | fuel + 1, c :: rest =>
    if old.isPrefixOf (c :: rest) then
      new ++ replaceAllGo old new fuel (rest.drop (old.length - 1))
    else c :: replaceAllGo old new fuel rest

/-- Python `hay.replace(old, new)` (all occurrences). -/
def pyReplaceAll (hay old new : String) : String :=
  if old.data.isEmpty then new ++ String.join (hay.data.map (fun c => String.singleton c ++ new))
  else ⟨replaceAllGo old.data new.data hay.data.length hay.data⟩

/-- Worker replacing only the first occurrence (nonempty `old`). -/
def replaceOnceGo (old new : List Char) : List Char → List Char
  | [] => []
  | c :: rest =>
    if old.isPrefixOf (c :: rest) then new ++ (c :: rest).drop old.length
    else c :: replaceOnceGo old new rest

/-- Python `hay.replace(old, new, 1)`. -/
def pyReplaceOnce (hay old new : String) : String :=
  if old.data.isEmpty then new ++ hay else ⟨replaceOnceGo old.data new.data hay.data⟩

/-- Python `str.splitlines()` restricted to `'\n'` terminators. -/
def splitLines (s : String) : List String :=
  if s.data.isEmpty then []
  else
    let parts := (splitOnChar '\n' s.data).map String.mk
    if strEndsWith s "\n" then parts.dropLast else parts

/-- Lower-case hex digit for `jsonEscapeChar`. -/
def hexDigit (n : Nat) : String :=
  String.singleton (("0123456789abcdef".data.getD n '0'))

/-- Escape one character the way `json.dumps` does. -/
def jsonEscapeChar (c : Char) : String :=
  if c = '"' then "\\\""
  else if c = '\\' then "\\\\"
  else if c = '\n' then "\\n"
  else if c = '\t' then "\\t"
  else if c = '\r' then "\\r"
  else if c = '\x08' then "\\b"
  else if c = '\x0c' then "\\f"
  else if c.toNat < 32 then "\\u00" ++ hexDigit (c.toNat / 16) ++ hexDigit (c.toNat % 16)
  else String.singleton c

/-- Escape a string the way `json.dumps` does. -/
def jsonEscape (s : String) : String := String.join (s.data.map jsonEscapeChar)

/-- JSON-shaped values: the tool inputs and other dict payloads moved
between the model, the orchestrator and the tools. -/
inductive Value where
  | null
  | bool (b : Bool)
  | int (i : Int)
  | str (s : String)
  | arr (items : List Value)
  | obj (fields : List (String × Value))
deriving Repr

mutual

/-- `json.dumps` with its default separators `", "` and `": "`. -/
def Value.dumps : Value → String
  | .null => "null"
  | .bool true => "true"
  | .bool false => "false"
  | .int i => toString i
  | .str s => "\"" ++ jsonEscape s ++ "\""
  | .arr items => "[" ++ dumpsArr items ++ "]"
  | .obj fields => "\x7b" ++ dumpsObj fields ++ "\x7d"

/-- Comma-joined serializations of array elements. -/
def dumpsArr : List Value → String
  | [] => ""
  | [v] => v.dumps
  | v :: rest => v.dumps ++ ", " ++ dumpsArr rest

/-- Comma-joined `"key": value` serializations of object fields. -/
def dumpsObj : List (String × Value) → String
  | [] => ""
  | [(k, v)] => "\"" ++ jsonEscape k ++ "\": " ++ v.dumps
  | (k, v) :: rest => "\"" ++ jsonEscape k ++ "\": " ++ v.dumps ++ ", " ++ dumpsObj rest

end

/-- Python `f"{i:6}"`: right-align in a field of width 6. -/
def padLeft6 (s : String) : String :=
  if s.length ≥ 6 then s else String.mk (List.replicate (6 - s.length) ' ') ++ s

/-! ### Data model: messages (context.py)

A message content is either plain text or an ordered list of typed
blocks, exactly the dict shapes built in `context.py`. -/

/-- One typed content block of a message. -/
inductive Block where
  | text (text : String)
  | toolUse (id : String) (name : String) (input : List (String × Value))
  | toolResult (tool_use_id : String) (content : String) (is_error : Bool)
deriving Repr

/-- Message content: plain string or block list. -/
inductive Content where
  | str (s : String)
  | blocks (bs : List Block)
deriving Repr

/-- A role-tagged message record. -/
structure Message where
  role : String
  content : Content
deriving Repr

/-- The tool-input dict attached to a `tool_use` block. -/
abbrev ToolInput := List (String × Value)

/-! ### context.py: TokenUsage -/

/-- `TokenUsage`: monotone counters for the session. -/
structure TokenUsage where
  input_tokens : Nat := 0
  output_tokens : Nat := 0
  cache_read_tokens : Nat := 0
  cache_creation_tokens : Nat := 0
deriving Repr, DecidableEq

/-- Usage counters reported by one API response. -/
structure UsageDelta where
  input_tokens : Nat := 0
  output_tokens : Nat := 0
  cache_read_input_tokens : Nat := 0
  cache_creation_input_tokens : Nat := 0
deriving Repr

/-- `TokenUsage.add`. -/
def TokenUsage.add (u : TokenUsage) (d : UsageDelta) : TokenUsage :=
  { input_tokens := u.input_tokens + d.input_tokens
    output_tokens := u.output_tokens + d.output_tokens
    cache_read_tokens := u.cache_read_tokens + d.cache_read_input_tokens
    cache_creation_tokens := u.cache_creation_tokens + d.cache_creation_input_tokens }

/-- `TokenUsage.total`. -/
def TokenUsage.total (u : TokenUsage) : Nat := u.input_tokens + u.output_tokens

/-- The dict produced by `TokenUsage.to_dict`. -/
structure TokenUsageDict where
  input_tokens : Nat
  output_tokens : Nat
  cache_read_tokens : Nat
  cache_creation_tokens : Nat
  total : Nat
deriving Repr, DecidableEq

/-- `TokenUsage.to_dict`. -/
def TokenUsage.to_dict (u : TokenUsage) : TokenUsageDict :=
  ⟨u.input_tokens, u.output_tokens, u.cache_read_tokens, u.cache_creation_tokens, u.total⟩

/-! ### context.py: ContextManager -/

/-- `ContextManager` state; `_estimated_tokens` caches the last estimate. -/
structure ContextManager where
  system_prompt : String := ""
  messages : List Message := []
  max_context_tokens : Nat := 150000
  checkpoint_threshold : ℚ := 6 / 10
  summary_threshold : ℚ := 8 / 10
  _estimated_tokens : Nat := 0
deriving Repr

/-- `estimate_tokens`: four characters per token (floor division). -/
def estimate_tokens (text : String) : Nat := text.length / 4

/-- `estimate_message_tokens`: text by its text, tool-use by the serialized
input, tool-result by its string content. -/
def estimate_message_tokens (message : Message) : Nat :=
  match message.content with
  | .str s => estimate_tokens s
  | .blocks bs =>
    bs.foldl
      (fun total b =>
        total +
          match b with
          | .text t => estimate_tokens t
          | .toolUse _ _ input => estimate_tokens (Value.dumps (.obj input))
          | .toolResult _ content _ => estimate_tokens content)
      0

/-- The total recomputed in `update_token_estimate`. -/
def computeEstimate (system_prompt : String) (messages : List Message) : Nat :=
  messages.foldl (fun total m => total + estimate_message_tokens m)
    (estimate_tokens system_prompt)

/-- `update_token_estimate`: recalculate `_estimated_tokens` from scratch. -/
def ContextManager.update_token_estimate (cm : ContextManager) : ContextManager :=
  { cm with _estimated_tokens := computeEstimate cm.system_prompt cm.messages }

/-- `context_usage` as a fraction of the configured ceiling. -/
def ContextManager.context_usage (cm : ContextManager) : ℚ :=
  (cm._estimated_tokens : ℚ) / (cm.max_context_tokens : ℚ)

/-- `should_checkpoint`. -/
def ContextManager.should_checkpoint (cm : ContextManager) : Prop :=
  cm.checkpoint_threshold ≤ cm.context_usage

/-- `should_summarize`. -/
def ContextManager.should_summarize (cm : ContextManager) : Prop :=
  cm.summary_threshold ≤ cm.context_usage

/-- `add_user_message`. -/
def ContextManager.add_user_message (cm : ContextManager) (content : String) :
    ContextManager :=
  ({ cm with messages := cm.messages ++ [Message.mk "user" (.str content)] }).update_token_estimate

/-- `add_assistant_message` with a block-list payload (the orchestrator
always passes the response's content blocks). -/
def ContextManager.add_assistant_message (cm : ContextManager) (content : List Block) :
    ContextManager :=
  ({ cm with messages := cm.messages ++ [Message.mk "assistant" (.blocks content)] }).update_token_estimate

/-- One tool-result record collected by the orchestrator. -/
structure ToolResultRec where
  tool_use_id : String
  content : String
  is_error : Bool
deriving Repr

/-- The `tool_result` block built from one collected record. -/
def toolResultBlock (r : ToolResultRec) : Block :=
  .toolResult r.tool_use_id r.content r.is_error

/-- `add_tool_results`: all results in one user message, in order. -/
def ContextManager.add_tool_results (cm : ContextManager) (results : List ToolResultRec) :
    ContextManager :=
  ({ cm with
      messages := cm.messages ++ [Message.mk "user" (.blocks (results.map toolResultBlock))] }).update_token_estimate

/-- The delimited summary envelope written by `summarize_old_context`. -/
def summaryEnvelope (oldCount : Nat) (summary : String) : String :=
  "[CONTEXT SUMMARY - " ++ toString oldCount ++ " previous messages]\n\n" ++ summary ++
    "\n\n[END SUMMARY - Recent conversation follows]"

/-- `summarize_old_context`: replace everything before the last
`keep_recent * 2` messages with a single synthetic user message. -/
def ContextManager.summarize_old_context (cm : ContextManager) (summary : String)
    (keep_recent : Nat) : ContextManager :=
  if cm.messages.length ≤ keep_recent * 2 then cm
  else
    let cutoff := cm.messages.length - keep_recent * 2
    let old_messages := cm.messages.take cutoff
    let recent_messages := cm.messages.drop cutoff
    let summary_msg : Message := ⟨"user", .str (summaryEnvelope old_messages.length summary)⟩
    ({ cm with messages := summary_msg :: recent_messages }).update_token_estimate

/-- The dict produced by `ContextManager.to_dict`. -/
structure CtxDict where
  system_prompt : String
  messages : List Message
  estimated_tokens : Nat
deriving Repr

/-- `ContextManager.to_dict`. -/
def ContextManager.to_dict (cm : ContextManager) : CtxDict :=
  ⟨cm.system_prompt, cm.messages, cm._estimated_tokens⟩

/-- `ContextManager.from_dict`: rebuild with dataclass-default thresholds,
set the saved estimate, then immediately recompute it. -/
def ContextManager.from_dict (data : CtxDict) (max_context_tokens : Nat) : ContextManager :=
  (ContextManager.update_token_estimate
    { system_prompt := data.system_prompt
      messages := data.messages
      max_context_tokens := max_context_tokens
      _estimated_tokens := data.estimated_tokens })

/-! ### costs.py: CostTracker

Dollar amounts are rationals in place of Python floats; callback
invocations are made observable as an emitted `FireEv` list. -/

/-- `CostConfig` thresholds. -/
structure CostConfig where
  warn : ℚ := 10
  alert : ℚ := 25
  max : ℚ := 50
deriving Repr, DecidableEq

/-- Per-million token pricing. -/
structure Pricing where
  input : ℚ
  output : ℚ
deriving Repr, DecidableEq

/-- `DEFAULT_PRICING`. -/
def DEFAULT_PRICING : List (String × Pricing) :=
  [("haiku", ⟨1, 5⟩), ("sonnet", ⟨3, 15⟩), ("opus", ⟨5, 25⟩)]

/-- `get_model_short_name`: short names pass through; otherwise substring
match on the lowered name, defaulting to the mid tier. -/
def get_model_short_name (model : String) : String :=
  let model_lower := strToLower model
  if model_lower = "haiku" ∨ model_lower = "sonnet" ∨ model_lower = "opus" then model_lower
  else if strContains model_lower "haiku" then "haiku"
  else if strContains model_lower "opus" then "opus"
  else "sonnet"

/-- `MODEL_MAP` of costs.py. -/
def MODEL_MAP : List (String × String) :=
  [("haiku", "claude-haiku-4-5-20251001"),
   ("sonnet", "claude-sonnet-4-5-20250929"),
   ("opus", "claude-opus-4-5-20251101")]

/-- `resolve_model_name`. -/
def resolve_model_name (model : String) : String :=
  if (MODEL_MAP.lookup (strToLower model)).isSome then (MODEL_MAP.lookup (strToLower model)).getD ""
  else if strStartsWith model "claude-" then model
  else if strContains (strToLower model) "haiku" then (MODEL_MAP.lookup "haiku").getD ""
  else if strContains (strToLower model) "opus" then (MODEL_MAP.lookup "opus").getD ""
  else (MODEL_MAP.lookup "sonnet").getD ""

/-- One observable callback invocation, carrying the total cost passed
to the callback. -/
inductive FireEv where
  | warning (cost : ℚ)
  | alert (cost : ℚ)
deriving Repr, DecidableEq

/-- Whether a fire is a warning-callback invocation. -/
def FireEv.isWarning : FireEv → Bool
  | .warning _ => true
  | .alert _ => false

/-- Whether a fire is an alert-callback invocation. -/
def FireEv.isAlert : FireEv → Bool
  | .warning _ => false
  | .alert _ => true

/-- A fire carries a cost at or above its own threshold. -/
def fireAboveThreshold (cfg : CostConfig) : FireEv → Bool
  | .warning c => decide (cfg.warn ≤ c)
  | .alert c => decide (cfg.alert ≤ c)

/-- `CostTracker` state; `hasOnWarning`/`hasOnAlert` record whether the
optional callbacks were installed at construction. -/
structure CostTracker where
  config : CostConfig
  pricing : List (String × Pricing)
  hasOnWarning : Bool
  hasOnAlert : Bool
  total_cost : ℚ := 0
  input_tokens : Nat := 0
  output_tokens : Nat := 0
  api_calls : Nat := 0
  cost_by_model : List (String × ℚ) := []
  tokens_by_model : List (String × (Nat × Nat)) := []
  warning_acknowledged : Bool := false
  alert_acknowledged : Bool := false
deriving Repr

/-- The freshly constructed tracker (`CostTracker.__init__`). -/
def mkCostTracker (config : CostConfig) (pricing : List (String × Pricing))
    (hasOnWarning hasOnAlert : Bool) : CostTracker :=
  { config := config, pricing := pricing
    hasOnWarning := hasOnWarning, hasOnAlert := hasOnAlert }

/-- `get_pricing` with its default chain. -/
def CostTracker.get_pricing (t : CostTracker) (model : String) : Pricing :=
  let short_name := get_model_short_name model
  (t.pricing.lookup short_name).getD
    ((DEFAULT_PRICING.lookup short_name).getD ⟨3, 15⟩)

/-- `calculate_cost`. -/
def CostTracker.calculate_cost (t : CostTracker) (model : String)
    (input_tokens output_tokens : Nat) : ℚ :=
  let pricing := t.get_pricing model
  (input_tokens : ℚ) / 1000000 * pricing.input + (output_tokens : ℚ) / 1000000 * pricing.output

/-- The warning clause of `_check_thresholds`: latch first, then invoke
the callback when installed. -/
def CostTracker.check_warn (t : CostTracker) : CostTracker × List FireEv :=
  if t.config.warn ≤ t.total_cost ∧ t.warning_acknowledged = false then
    ({ t with warning_acknowledged := true },
      if t.hasOnWarning then [FireEv.warning t.total_cost] else [])
  else (t, [])

/-- The alert clause of `_check_thresholds`. -/
def CostTracker.check_alert (t : CostTracker) : CostTracker × List FireEv :=
  if t.config.alert ≤ t.total_cost ∧ t.alert_acknowledged = false then
    ({ t with alert_acknowledged := true },
      if t.hasOnAlert then [FireEv.alert t.total_cost] else [])
  else (t, [])

/-- `_check_thresholds`: the warning clause then the alert clause. -/
def CostTracker.check_thresholds (t : CostTracker) : CostTracker × List FireEv :=
  ((t.check_warn.1.check_alert).1, t.check_warn.2 ++ (t.check_warn.1.check_alert).2)

/-- Assoc-list map update used for the per-model dict aggregation. -/
def assocAddQ (l : List (String × ℚ)) (k : String) (dv : ℚ) : List (String × ℚ) :=
  l.map (fun kv => if kv.1 = k then (kv.1, kv.2 + dv) else kv)

/-- Assoc-list map update for the per-model token dict. -/
def assocAddTok (l : List (String × (Nat × Nat))) (k : String) (di dOut : Nat) :
    List (String × (Nat × Nat)) :=
  l.map (fun kv => if kv.1 = k then (kv.1, (kv.2.1 + di, kv.2.2 + dOut)) else kv)

/-- The state mutations of `add_usage` before `_check_thresholds`. -/
def CostTracker.applyUsage (t : CostTracker) (model : String)
    (input_tokens output_tokens : Nat) : CostTracker :=
  let cost := t.calculate_cost model input_tokens output_tokens
  let t1 := { t with
    total_cost := t.total_cost + cost
    input_tokens := t.input_tokens + input_tokens
    output_tokens := t.output_tokens + output_tokens
    api_calls := t.api_calls + 1 }
  let t2 :=
    if (t1.cost_by_model.lookup model).isNone then
      { t1 with
        cost_by_model := t1.cost_by_model ++ [(model, 0)]
        tokens_by_model := t1.tokens_by_model ++ [(model, (0, 0))] }
    else t1
  { t2 with
    cost_by_model := assocAddQ t2.cost_by_model model cost
    tokens_by_model := assocAddTok t2.tokens_by_model model input_tokens output_tokens }

/-- `add_usage`: update totals and per-model aggregates, then evaluate
thresholds. -/
def CostTracker.add_usage (t : CostTracker) (model : String)
    (input_tokens output_tokens : Nat) : CostTracker × List FireEv :=
  (t.applyUsage model input_tokens output_tokens).check_thresholds

/-- `set_initial_cost`: set the total and re-evaluate thresholds. -/
def CostTracker.set_initial_cost (t : CostTracker) (cost : ℚ) : CostTracker × List FireEv :=
  CostTracker.check_thresholds { t with total_cost := cost }

/-- `reset_alerts`. -/
def CostTracker.reset_alerts (t : CostTracker) : CostTracker :=
  { t with warning_acknowledged := false, alert_acknowledged := false }

/-- `should_stop`: the hard budget gate. -/
def CostTracker.should_stop (t : CostTracker) : Prop := t.config.max ≤ t.total_cost

/-- One external call on the tracker. -/
inductive CostEvent where
  | addUsage (model : String) (input_tokens output_tokens : Nat)
  | setInitialCost (cost : ℚ)
deriving Repr

/-- Apply one event. -/
def CostTracker.stepEvent (t : CostTracker) : CostEvent → CostTracker × List FireEv
  | .addUsage model i o => t.add_usage model i o
  | .setInitialCost c => t.set_initial_cost c

/-- Run a sequence of `add_usage`/`set_initial_cost` calls, collecting
every callback invocation in order. -/
def runEvents (t : CostTracker) : List CostEvent → CostTracker × List FireEv
  | [] => (t, [])
  | e :: evs =>
    let p1 := t.stepEvent e
    let p2 := runEvents p1.1 evs
    (p2.1, p1.2 ++ p2.2)

/-! ### tools.py: paths, sandbox and the tool catalog

The ambient OS is explicit: `real` is `Path.resolve()` (symlinks and
dot-dots), `listdir` is `Path.iterdir()` metadata, `runShell` is the
subprocess layer.  The file map is keyed by fully resolved paths, since
the OS resolves symlinks when a file is opened. -/

/-- An absolute path as its component list. -/
abbrev AbsPath := List String

/-- Parsed form of a POSIX path string: absolute flag plus components
(empty components and lone dots dropped, as `pathlib` does). -/
def parsePath (s : String) : Bool × List String :=
  (strStartsWith s "/", (pySplitOn s "/").filter (fun c => c != "" && c != "."))

/-- One `iterdir` entry as the source consumes it: name, kind, size. -/
structure DirEntry where
  name : String
  isDir : Bool
  size : Nat
deriving Repr, DecidableEq

/-- A finished subprocess. -/
structure ShellOut where
  stdout : String
  stderr : String
  returncode : Int
deriving Repr, DecidableEq

/-- Outcome of `subprocess.run`: completion or `TimeoutExpired`. -/
inductive ShellResult where
  | done (res : ShellOut)
  | timedOut
deriving Repr, DecidableEq

/-- `tools.bash` configuration. -/
structure BashConfig where
  timeout : Nat := 120
  allowed : List String := []
  blocked : List String := []
  confirm : List String := []
deriving Repr, DecidableEq

/-- The project file map, keyed by fully resolved absolute paths. -/
structure FS where
  files : List (AbsPath × String)
deriving Repr, DecidableEq

/-- Look a file up by resolved path. -/
def FS.lookupFile (fs : FS) (p : AbsPath) : Option String := fs.files.lookup p

/-- Create or overwrite a file. -/
def FS.writeFile (fs : FS) (p : AbsPath) (content : String) : FS :=
  if (fs.files.lookup p).isSome then
    ⟨fs.files.map (fun kv => if kv.1 = p then (p, content) else kv)⟩
  else ⟨fs.files ++ [(p, content)]⟩

/-- The `ToolError` exceptions raised in tools.py, one constructor per
distinct raise site relevant here. -/
inductive ToolError where
  | outsideProject (path : String)
  | fileNotFound (path : String)
  | notAFile (path : String)
  | stringNotFound (old_string : String)
  | ambiguous (count : Nat)
  | emptyCommand
  | blockedCmd (cmd : String)
  | notAllowed (cmd : String) (allowed : List String)
  | notConfirmed (cmd : String)
  | noConfirmHandler (cmd : String)
  | timedOut (timeout : Nat)
  | dirNotFound (path : String)
  | notADirectory (path : String)
deriving Repr, DecidableEq

/-- The message text of each `ToolError`, as raised in the source. -/
def ToolError.msg : ToolError → String
  | .outsideProject p => "Path '" ++ p ++ "' is outside project directory"
  | .fileNotFound p => "File not found: " ++ p
  | .notAFile p => "Not a file: " ++ p
  | .stringNotFound old => "String not found in file: " ++ strTake old 100 ++ "..."
  | .ambiguous n =>
    "String appears " ++ toString n ++ " times. Use replace_all=true or provide more context."
  | .emptyCommand => "Empty command"
  | .blockedCmd c => "Command '" ++ c ++ "' is blocked for security"
  | .notAllowed c allowed =>
    "Command '" ++ c ++ "' is not in allowed list. Allowed commands: "
      ++ String.intercalate ", " (allowed.take 10) ++ "..."
  | .notConfirmed c => "Command '" ++ c ++ "' was not confirmed by user"
  | .noConfirmHandler c =>
    "Command '" ++ c ++ "' requires confirmation but no confirmation handler is set. "
      ++ "Command blocked for safety."
  | .timedOut t => "Command timed out after " ++ toString t ++ "s"
  | .dirNotFound p => "Directory not found: " ++ p
  | .notADirectory p => "Not a directory: " ++ p

/-- What a tool body can propagate to `execute`'s two handlers: a raised
`ToolError`, or any other Python exception (for example the `TypeError`
from binding a malformed `**input`). -/
inductive ExecErr where
  | toolErr (e : ToolError)
  | typeErr (m : String)
deriving Repr

/-- The `Tools` object's configuration plus the ambient OS.  `globImpl`,
`grepImpl` and `phaseImpl` stand for `tool_glob`, `tool_grep` and
`tool_phase_complete`, whose recursive traversal, regex engine and git
subprocesses no claim touches; the dispatcher treats them exactly as the
source does, catching whatever they raise. -/
structure ToolsEnv where
  projectDir : AbsPath
  real : AbsPath → AbsPath
  listdir : AbsPath → Option (List DirEntry)
  runShell : String → Nat → ShellResult
  bash_config : BashConfig
  on_confirm_request : Option (String → Bool)
  globImpl : FS → ToolInput → Except ExecErr (FS × String)
  grepImpl : FS → ToolInput → Except ExecErr (FS × String)
  phaseImpl : FS → ToolInput → Except ExecErr (FS × String)

/-- The join step of `resolve_path`: absolute inputs stand alone, relative
ones are appended to the project root. -/
def joinedPath (env : ToolsEnv) (path : String) : AbsPath :=
  if (parsePath path).1 then (parsePath path).2 else env.projectDir ++ (parsePath path).2

/-- `Tools.resolve_path`: join against the project root, then require the
fully resolved (symlink-free) form to be inside the resolved root; the
joined, unresolved path is what the tool goes on to open. -/
def resolve_path (env : ToolsEnv) (path : String) : Except ToolError AbsPath :=
  if (env.real env.projectDir).isPrefixOf (env.real (joinedPath env path)) then
    .ok (joinedPath env path)
  else .error (.outsideProject path)

/-- Required string argument of a tool input. -/
def reqStr (input : ToolInput) (key : String) : Except ExecErr String :=
  match input.lookup key with
  | some (.str s) => .ok s
  | some _ => .error (.typeErr ("argument '" ++ key ++ "' has an unexpected type"))
  | none => .error (.typeErr ("missing required argument: '" ++ key ++ "'"))

/-- Optional string argument. -/
def optStr (input : ToolInput) (key : String) : Option String :=
  match input.lookup key with
  | some (.str s) => some s
  | _ => none

/-- Optional integer argument with a default. -/
def optInt (input : ToolInput) (key : String) (dflt : Int) : Int :=
  match input.lookup key with
  | some (.int i) => i
  | _ => dflt

/-- Optional boolean argument with a default. -/
def optBool (input : ToolInput) (key : String) (dflt : Bool) : Bool :=
  match input.lookup key with
  | some (.bool b) => b
  | _ => dflt

/-- Optional list-of-strings argument (string items only, as the signal
tools receive). -/
def optStrList (input : ToolInput) (key : String) : Option (List String) :=
  match input.lookup key with
  | some (.arr vs) =>
    some (vs.filterMap (fun v => match v with | .str s => some s | _ => none))
  | _ => none

/-- Python slice end semantics for `lines[start:end]` with `start ≥ 0`. -/
def sliceEnd (total : Nat) (e : Int) : Int :=
  if e < 0 then max 0 ((total : Int) + e) else e

/-- Per-line truncation of `tool_read_file`. -/
def truncLine (line : String) : String :=
  if line.length > 2000 then strTake line 2000 ++ "... [truncated]" else line

/-- `tool_read_file`. -/
def tool_read_file (env : ToolsEnv) (fs : FS) (input : ToolInput) :
    Except ExecErr (FS × String) := do
  let path ← reqStr input "path"
  let offset := optInt input "offset" 1
  let limit := optInt input "limit" 2000
  let file_path ← (resolve_path env path).mapError ExecErr.toolErr
  let key := env.real file_path
  match fs.lookupFile key with
  | none =>
    if (env.listdir key).isSome then .error (.toolErr (.notAFile path))
    else .error (.toolErr (.fileNotFound path))
  | some content =>
    let lines := splitLines content
    let total_lines := lines.length
    let start_idx : Int := max 0 (offset - 1)
    let end_idx : Int := min (total_lines : Int) (sliceEnd total_lines (start_idx + limit))
    let selected := (lines.drop start_idx.toNat).take (end_idx - start_idx).toNat
    let numbered := (List.enumFrom (start_idx.toNat + 1) selected).map
      (fun p => padLeft6 (toString p.1) ++ "\t" ++ truncLine p.2)
    let result := String.intercalate "\n" numbered
    let result :=
      if end_idx < (total_lines : Int) then
        result ++ "\n\n[... " ++ toString (total_lines - end_idx.toNat) ++ " more lines]"
      else result
    .ok (fs, result)

/-- `tool_write_file`; `mkdir(parents=True)` has no observable effect on
the file map. -/
def tool_write_file (env : ToolsEnv) (fs : FS) (input : ToolInput) :
    Except ExecErr (FS × String) := do
  let path ← reqStr input "path"
  let content ← reqStr input "content"
  let file_path ← (resolve_path env path).mapError ExecErr.toolErr
  .ok (fs.writeFile (env.real file_path) content,
    "Successfully wrote " ++ toString content.length ++ " bytes to " ++ path)

/-- `tool_edit_file`: resolve, existence check, not-found check, ambiguity
check, then the first write.  Opening a directory raises outside the
`ToolError` hierarchy, like the `IsADirectoryError` the source lets the
generic handler catch. -/
def tool_edit_file (env : ToolsEnv) (fs : FS) (input : ToolInput) :
    Except ExecErr (FS × String) := do
  let path ← reqStr input "path"
  let old_string ← reqStr input "old_string"
  let new_string ← reqStr input "new_string"
  let replace_all := optBool input "replace_all" false
  let file_path ← (resolve_path env path).mapError ExecErr.toolErr
  let key := env.real file_path
  match fs.lookupFile key with
  | none =>
    if (env.listdir key).isSome then .error (.typeErr "IsADirectoryError")
    else .error (.toolErr (.fileNotFound path))
  | some content =>
    if strContains content old_string = false then
      .error (.toolErr (.stringNotFound old_string))
    else if replace_all = false ∧ countOcc content old_string > 1 then
      .error (.toolErr (.ambiguous (countOcc content old_string)))
    else
      let new_content :=
        if replace_all then pyReplaceAll content old_string new_string
        else pyReplaceOnce content old_string new_string
      let count := if replace_all then countOcc content old_string else 1
      .ok (fs.writeFile key new_content,
        "Replaced " ++ toString count ++ " occurrence(s) in " ++ path)

/-- The three security layers of `tool_bash`, evaluated before any
subprocess: `some` is the raised `ToolError`, `none` lets execution
proceed. -/
def bashPolicyCheck (env : ToolsEnv) (command : String) : Option ToolError :=
  let parts := pySplitWs command
  match parts with
  | [] => some .emptyCommand
  | p0 :: _ =>
    let base_cmd :=
      if strContains p0 "|" then pyStrip ((pySplitOn p0 "|").headD "")
      else if strContains p0 "&&" then pyStrip ((pySplitOn p0 "&&").headD "")
      else if strContains p0 "||" then pyStrip ((pySplitOn p0 "||").headD "")
      else if strContains p0 ";" then pyStrip ((pySplitOn p0 ";").headD "")
      else p0
    match env.bash_config.blocked.find? (fun b => parts.contains b) with
    | some b => some (.blockedCmd b)
    | none =>
      let allowed := env.bash_config.allowed
      if allowed ≠ [] ∧ ¬ allowed.contains base_cmd = true then
        some (.notAllowed base_cmd allowed)
      else
        let needs_confirm := env.bash_config.confirm.any (fun c => parts.contains c)
        if needs_confirm then
          match env.on_confirm_request with
          | some cb =>
            if cb ("Command requires confirmation: " ++ command
                ++ "\nThis command may modify or delete files.") then none
            else some (.notConfirmed base_cmd)
          | none => some (.noConfirmHandler base_cmd)
        else none

/-- Assemble stdout, stderr, exit marker and truncation of `tool_bash`. -/
def assembleShellOutput (res : ShellOut) : String :=
  let output := ""
  let output := if res.stdout ≠ "" then output ++ res.stdout else output
  let output :=
    if res.stderr ≠ "" then
      (if output ≠ "" then output ++ "\n" else output) ++ "[stderr]\n" ++ res.stderr
    else output
  let output :=
    if res.returncode ≠ 0 then
      output ++ "\n[exit code: " ++ toString res.returncode ++ "]"
    else output
  let output :=
    if output.length > 30000 then strTake output 30000 ++ "\n\n[... output truncated]"
    else output
  if output ≠ "" then output else "[no output]"

/-- `tool_bash`; the shell's own effects live behind `env.runShell`. -/
def tool_bash (env : ToolsEnv) (fs : FS) (input : ToolInput) :
    Except ExecErr (FS × String) := do
  let command ← reqStr input "command"
  let timeout :=
    match input.lookup "timeout" with
    | some (.int i) => i.toNat
    | _ => env.bash_config.timeout
  match bashPolicyCheck env command with
  | some e => .error (.toolErr e)
  | none =>
    match env.runShell command timeout with
    | .done res => .ok (fs, assembleShellOutput res)
    | .timedOut => .error (.toolErr (.timedOut timeout))

/-- Whether a directory entry is hidden (skipped by `tool_list_dir`). -/
def hiddenEntry (e : DirEntry) : Bool := strStartsWith e.name "."

/-- One formatted line of `tool_list_dir`. -/
def formatEntry (e : DirEntry) : String :=
  if e.isDir then e.name ++ "/" else e.name ++ " (" ++ toString e.size ++ " bytes)"

/-- `sorted(dir_path.iterdir())`: by name. -/
def sortEntries (entries : List DirEntry) : List DirEntry :=
  List.insertionSort (fun a b => a.name ≤ b.name) entries

instance : IsTrans DirEntry (fun a b => a.name ≤ b.name) :=
  ⟨fun _ _ _ hab hbc => le_trans hab hbc⟩

instance : IsTotal DirEntry (fun a b => a.name ≤ b.name) :=
  ⟨fun a b => le_total a.name b.name⟩

/-- The listing construction of `tool_list_dir`: sort, skip hidden,
format, or report an empty directory. -/
def listDirCore (entries : List DirEntry) : String :=
  let shown := (sortEntries entries).filter (fun e => ! hiddenEntry e)
  if shown.isEmpty then "[empty directory]"
  else String.intercalate "\n" (shown.map formatEntry)

/-- `tool_list_dir`; with no `path` argument the project root is listed
without a confinement check, as in the source. -/
def tool_list_dir (env : ToolsEnv) (fs : FS) (input : ToolInput) :
    Except ExecErr (FS × String) := do
  let pathOpt := optStr input "path"
  let dir_path ←
    match pathOpt with
    | some p => (resolve_path env p).mapError ExecErr.toolErr
    | none => .ok env.projectDir
  let key := env.real dir_path
  let pathStr := pathOpt.getD "None"
  match env.listdir key with
  | some entries => .ok (fs, listDirCore entries)
  | none =>
    if (fs.lookupFile key).isSome then .error (.toolErr (.notADirectory pathStr))
    else .error (.toolErr (.dirNotFound pathStr))

/-- `tool_task_complete`: pure signal formatting. -/
def tool_task_complete (fs : FS) (input : ToolInput) : Except ExecErr (FS × String) := do
  let summary ← reqStr input "summary"
  let result := "Task completed: " ++ summary
  let result :=
    match optStrList input "next_steps" with
    | some steps =>
      if steps ≠ [] then
        result ++ "\n\nSuggested next steps:\n"
          ++ String.intercalate "\n" (steps.map (fun s => "- " ++ s))
      else result
    | none => result
  .ok (fs, result)

/-- `tool_request_help`: pure signal formatting. -/
def tool_request_help (fs : FS) (input : ToolInput) : Except ExecErr (FS × String) := do
  let question ← reqStr input "question"
  let result := "HELP REQUESTED: " ++ question
  let result :=
    match optStr input "context" with
    | some c => result ++ "\n\nContext: " ++ c
    | none => result
  let result :=
    match optStrList input "options" with
    | some opts =>
      if opts ≠ [] then
        result ++ "\n\nOptions:\n" ++ String.intercalate "\n" (opts.map (fun o => "- " ++ o))
      else result
    | none => result
  .ok (fs, result)

/-- Convert a tool body's outcome into `execute`'s `(content, is_error)`
pair: successes pass through, raised errors keep the pre-call file map. -/
def executeRun (fs : FS) (r : Except ExecErr (FS × String)) : FS × String × Bool :=
  match r with
  | .ok (fs2, out) => (fs2, out, false)
  | .error (.toolErr e) => (fs, e.msg, true)
  | .error (.typeErr m) => (fs, "Tool error: TypeError: " ++ m, true)

/-- `Tools.execute`: the `getattr`-based dispatch over `tool_<name>`
methods, with the unknown-tool fallback and both exception handlers. -/
def Tools.execute (env : ToolsEnv) (fs : FS) (tool_name : String) (tool_input : ToolInput) :
    FS × String × Bool :=
  if tool_name = "read_file" then executeRun fs (tool_read_file env fs tool_input)
  else if tool_name = "write_file" then executeRun fs (tool_write_file env fs tool_input)
  else if tool_name = "edit_file" then executeRun fs (tool_edit_file env fs tool_input)
  else if tool_name = "bash" then executeRun fs (tool_bash env fs tool_input)
  else if tool_name = "glob" then executeRun fs (env.globImpl fs tool_input)
  else if tool_name = "grep" then executeRun fs (env.grepImpl fs tool_input)
  else if tool_name = "list_dir" then executeRun fs (tool_list_dir env fs tool_input)
  else if tool_name = "phase_complete" then executeRun fs (env.phaseImpl fs tool_input)
  else if tool_name = "task_complete" then executeRun fs (tool_task_complete fs tool_input)
  else if tool_name = "request_help" then executeRun fs (tool_request_help fs tool_input)
  else (fs, "Unknown tool: " ++ tool_name, true)

/-- The tool names with an implementation (`tool_<name>` methods). -/
def knownToolNames : List String :=
  ["read_file", "write_file", "edit_file", "bash", "glob", "grep", "list_dir",
   "phase_complete", "task_complete", "request_help"]

/-! ### checkpoint.py: CheckpointManager, at the record level

The JSON file on disk carries exactly the record written by `save`;
`load` returns it (or nothing, for a missing or corrupted file), so the
disk round-trip is the identity on the record and is elided. -/

/-- The checkpoint document written by `CheckpointManager.save`. -/
structure CheckpointRec where
  version : Nat
  timestamp : String
  task_description : String
  current_phase : Option String
  completed_tasks : List String
  token_usage : TokenUsageDict
  total_cost : ℚ
  context : CtxDict
  extra_state : List (String × Value)
deriving Repr

/-- `CheckpointManager.save`: build the checkpoint record (the timestamp
is `datetime.now`, passed in). -/
def CheckpointManager.save (context : ContextManager) (token_usage : TokenUsage)
    (total_cost : ℚ) (task_description : String) (timestamp : String)
    (current_phase : Option String := none) (completed_tasks : List String := [])
    (extra_state : List (String × Value) := []) : CheckpointRec :=
  { version := 1
    timestamp := timestamp
    task_description := task_description
    current_phase := current_phase
    completed_tasks := completed_tasks
    token_usage := token_usage.to_dict
    total_cost := total_cost
    context := context.to_dict
    extra_state := extra_state }

/-- Rebuild `TokenUsage` from its saved dict (the saved `total` is not
trusted). -/
def tokenUsageFromDict (d : TokenUsageDict) : TokenUsage :=
  ⟨d.input_tokens, d.output_tokens, d.cache_read_tokens, d.cache_creation_tokens⟩

/-- `CheckpointManager.restore_context` on a loaded checkpoint: rebuild
the Context Manager (recomputing its estimate), the Token Usage and the
cost total, returning the raw record as well. -/
def CheckpointManager.restore_context (checkpoint : CheckpointRec)
    (max_context_tokens : Nat) : ContextManager × TokenUsage × ℚ × CheckpointRec :=
  (ContextManager.from_dict checkpoint.context max_context_tokens,
   tokenUsageFromDict checkpoint.token_usage,
   checkpoint.total_cost, checkpoint)

/-! ### orchestrator.py -/

/-- The orchestrator configuration fields the claims touch. -/
structure OrchConfig where
  max_context_tokens : Nat := 150000
  max_tool_calls_per_turn : Nat := 20
deriving Repr

/-- The orchestrator state fields the claims touch. -/
structure OrchState where
  context : ContextManager
  token_usage : TokenUsage
  cost_tracker : CostTracker
  task_description : String
  completed_tasks : List String
  is_complete : Bool
  needs_human_input : Bool
  human_input_request : String

/-- `Orchestrator._build_system_prompt`; `learnings` is the loaded
learnings dict rendered by the f-string (`none` for the falsy empty
dict). -/
def buildSystemPrompt (project_dir : String) (task_description : String)
    (completed_tasks : List String) (learnings : Option String) : String :=
  let prompt := "You are an expert software engineer working on a project.\n\nPROJECT DIRECTORY: "
    ++ project_dir ++ "\n\nTASK: " ++ task_description
    ++ "\n\nINSTRUCTIONS:\n1. Break down the task into phases (logical units of work)\n2. For each phase:\n   a. Implement the changes\n   b. Verify it works (run tests, check syntax, manual verification)\n   c. Call phase_complete with summary and verification details\n   d. This will automatically commit the changes\n3. If stuck or need clarification, use request_help tool\n4. When ALL phases are done, use task_complete tool\n\nCONSTRAINTS:\n- Only modify files within the project directory\n- Follow existing code style and patterns\n- Write tests for new functionality\n- Keep changes minimal and focused\n\n"
  let prompt :=
    match learnings with
    | some l => prompt ++ "\nPROJECT LEARNINGS (from previous sessions):\n" ++ l ++ "\n\n"
    | none => prompt
  if completed_tasks ≠ [] then
    prompt ++ "\nCOMPLETED SO FAR:\n"
      ++ String.intercalate "\n" (completed_tasks.map (fun t => "- " ++ t))
      ++ "\n\nContinue from where you left off.\n"
  else prompt

/-- `Orchestrator.resume`: restore context, usage and cost (re-evaluating
cost thresholds via `set_initial_cost`), adopt the checkpointed task and
completed list, and rebuild the system prompt; `none` when no checkpoint
loads.  The fire list records the cost callbacks invoked. -/
def Orchestrator.resume (project_dir : String) (learnings : Option String)
    (cfg : OrchConfig) (st : OrchState) (loaded : Option CheckpointRec) :
    Option (OrchState × List FireEv) :=
  match loaded with
  | none => none
  | some checkpoint =>
    let r := CheckpointManager.restore_context checkpoint cfg.max_context_tokens
    let p := st.cost_tracker.set_initial_cost r.2.2.1
    let task_description := checkpoint.task_description
    let completed_tasks := checkpoint.completed_tasks
    let context := { r.1 with
      system_prompt := buildSystemPrompt project_dir task_description completed_tasks learnings }
    some ({ st with
      context := context
      token_usage := r.2.1
      cost_tracker := p.1
      task_description := task_description
      completed_tasks := completed_tasks }, p.2)

/-- One `tool_use` block as the dispatch loop consumes it. -/
structure ToolUseBlk where
  id : String
  name : String
  input : ToolInput
deriving Repr

/-- The loop's extraction of tool-use blocks from the response content. -/
def extractToolUses (blocks : List Block) : List ToolUseBlk :=
  blocks.filterMap fun b =>
    match b with
    | .toolUse i n inp => some ⟨i, n, inp⟩
    | _ => none

/-- The orchestrator state threaded through `_execute_tools`. -/
structure TurnState where
  fs : FS
  is_complete : Bool
  completed_tasks : List String
  needs_human_input : Bool
  human_input_request : String
deriving Repr

/-- `dict.get` with a string default, as used for the summary. -/
def getStrD (input : ToolInput) (key : String) (dflt : String) : String :=
  match input.lookup key with
  | some (.str s) => s
  | _ => dflt

/-- One iteration of the `_execute_tools` loop: execute the tool, then
the special handling of `task_complete` and `request_help`. -/
def execOneTool (env : ToolsEnv) (onHelp : Option (String → String))
    (s : TurnState) (u : ToolUseBlk) : TurnState × ToolResultRec :=
  let e := Tools.execute env s.fs u.name u.input
  let s := { s with fs := e.1 }
  let result := e.2.1
  let is_error := e.2.2
  if u.name = "task_complete" then
    let summary := getStrD u.input "summary" "Task completed"
    ({ s with is_complete := true, completed_tasks := s.completed_tasks ++ [summary] },
     ⟨u.id, result, is_error⟩)
  else if u.name = "request_help" then
    match onHelp with
    | some cb =>
      let human_response := cb result
      if human_response ≠ "" then
        ({ s with needs_human_input := false, human_input_request := result },
         ⟨u.id, "Human response: " ++ human_response, is_error⟩)
      else
        ({ s with needs_human_input := true, human_input_request := result },
         ⟨u.id, result, is_error⟩)
    | none =>
      ({ s with needs_human_input := true, human_input_request := result },
       ⟨u.id, result, is_error⟩)
  else (s, ⟨u.id, result, is_error⟩)

/-- Sequential execution of the kept tool uses, collecting results in
order. -/
def execToolsGo (env : ToolsEnv) (onHelp : Option (String → String)) :
    TurnState → List ToolUseBlk → TurnState × List ToolResultRec
  | s, [] => (s, [])
  | s, u :: rest =>
    let p := execOneTool env onHelp s u
    let q := execToolsGo env onHelp p.1 rest
    (q.1, p.2 :: q.2)

/-- `Orchestrator._execute_tools`: truncate the tool-use list from the
tail to `max_tool_calls_per_turn`, then execute sequentially. -/
def executeTools (cfg : OrchConfig) (env : ToolsEnv) (onHelp : Option (String → String))
    (s : TurnState) (tool_uses : List ToolUseBlk) : TurnState × List ToolResultRec :=
  let kept :=
    if tool_uses.length > cfg.max_tool_calls_per_turn then
      tool_uses.take cfg.max_tool_calls_per_turn
    else tool_uses
  execToolsGo env onHelp s kept

/-- The tool portion of one `run` iteration: append the assistant message,
extract its tool uses, execute them, and append the single results
message. -/
def dispatchTurn (cfg : OrchConfig) (env : ToolsEnv) (onHelp : Option (String → String))
    (s : TurnState) (cm : ContextManager) (assistant_content : List Block) :
    TurnState × ContextManager :=
  let cm := cm.add_assistant_message assistant_content
  let tool_uses := extractToolUses assistant_content
  if tool_uses.isEmpty then (s, cm)
  else
    let p := executeTools cfg env onHelp s tool_uses
    (p.1, cm.add_tool_results p.2)

/-- The `tool_result` ids of the last appended message. -/
def resultIdsOfLast (cm : ContextManager) : Option (List String) :=
  cm.messages.getLast?.map fun m =>
    match m.content with
    | .blocks bs =>
      bs.filterMap fun b =>
        match b with
        | .toolResult i _ _ => some i
        | _ => none
    | .str _ => []

/-- Concrete file map used in witnesses: one project file with a
duplicated line. -/
def wsFs : FS := ⟨[(["proj", "x.py"], "x = 1\nx = 1\n")]⟩

/-- Concrete tools environment used in witnesses: a symlink-free
filesystem (`real = id`) whose project root holds only the hidden
checkpoint directory. -/
def wsEnv : ToolsEnv :=
  { projectDir := ["proj"]
    real := id
    listdir := fun p => if p = ["proj"] then some [⟨".autopilot", true, 0⟩] else none
    runShell := fun _ _ => .done ⟨"", "", 0⟩
    bash_config := {}
    on_confirm_request := none
    globImpl := fun fs _ => .ok (fs, "")
    grepImpl := fun fs _ => .ok (fs, "")
    phaseImpl := fun fs _ => .ok (fs, "") }

/-- The shell-policy environment of the spec's scenario:
`allowed=[ls, cat]`, `blocked=[rm]`, `confirm=[mv]`, no confirmation
callback installed. -/
def c4Env : ToolsEnv :=
  { projectDir := ["proj"]
    real := id
    listdir := fun _ => none
    runShell := fun _ _ => .done ⟨"", "", 0⟩
    bash_config := { allowed := ["ls", "cat"], blocked := ["rm"], confirm := ["mv"] }
    on_confirm_request := none
    globImpl := fun fs _ => .ok (fs, "")
    grepImpl := fun fs _ => .ok (fs, "")
    phaseImpl := fun fs _ => .ok (fs, "") }

/-- Concrete three-message conversation used to witness summarization. -/
def exCm5 : ContextManager :=
  { system_prompt := "sys"
    messages :=
      [Message.mk "user" (.str "first"),
       Message.mk "user" (.str "second"),
       Message.mk "user" (.str "third")] }

/-- Truncation scenario: a per-turn budget of one tool call. -/
def cx1Cfg : OrchConfig := { max_tool_calls_per_turn := 1 }

/-- Two tool-use blocks emitted in one assistant message. -/
def cx1Blocks : List Block :=
  [.toolUse "i1" "task_complete" [("summary", .str "first half")],
   .toolUse "i2" "task_complete" [("summary", .str "second half")]]

/-- Fresh turn state over the concrete file map. -/
def cx1Turn : TurnState := ⟨wsFs, false, [], false, ""⟩

/-- Tracker for the resume scenario: default thresholds, both callbacks
installed, nothing latched. -/
def c7Tracker : CostTracker := mkCostTracker {} [] true true

/-- Checkpointed context for the resume scenario. -/
def c7Ctx : CtxDict := ⟨"old system prompt", [Message.mk "user" (.str "hello there")], 7⟩

/-- A checkpoint whose accumulated cost (15) already crossed warn (10). -/
def c7Chk : CheckpointRec :=
  { version := 1
    timestamp := "2026-01-01T00:00:00"
    task_description := "build the feature"
    current_phase := none
    completed_tasks := ["phase one"]
    token_usage := ⟨100, 50, 0, 0, 150⟩
    total_cost := 15
    context := c7Ctx
    extra_state := [] }

/-- Fresh orchestrator state for the resume scenario. -/
def c7St : OrchState :=
  { context := {}
    token_usage := {}
    cost_tracker := c7Tracker
    task_description := ""
    completed_tasks := []
    is_complete := false
    needs_human_input := false
    human_input_request := "" }

/-- A Context Manager whose cached estimate is consistent, for the
round-trip witness. -/
def ws8Cm : ContextManager := exCm5.update_token_estimate

/-! ### Theorems -/

/-- C5: Summarization preserves the tail.  For every summary string `S` and
retention count `k`, on a message list longer than `2k` the result keeps the
last `2k` messages unchanged in order, has exactly `2k + 1` messages, starts
with a single synthetic user message holding the summary envelope, and the
system prompt is unmodified. -/
theorem summarize_old_preserves_tail (cm : ContextManager) (S : String) (k : Nat)
    (h : 2 * k < cm.messages.length) :
    ((cm.summarize_old_context S k).messages.length = 2 * k + 1)
    ∧ ((cm.summarize_old_context S k).messages.drop 1
        = cm.messages.drop (cm.messages.length - 2 * k))
    ∧ ((cm.summarize_old_context S k).messages.head?
        = some (Message.mk "user"
            (.str (summaryEnvelope (cm.messages.length - 2 * k) S))))
    ∧ ((cm.summarize_old_context S k).system_prompt = cm.system_prompt) := by
  have hne : ¬ (cm.messages.length ≤ k * 2) := by omega
  unfold ContextManager.summarize_old_context
  rw [if_neg hne]
  simp only [ContextManager.update_token_estimate]
  refine ⟨?_, ?_, ?_, by trivial⟩
  · simp only [List.length_cons, List.length_drop]
    omega
  · simp only [List.drop_succ_cons, List.drop_zero]
    congr 1
    omega
  · simp only [List.head?_cons, Option.some.injEq, Message.mk.injEq, Content.str.injEq]
    refine ⟨by trivial, ?_⟩
    congr 1
    simp only [List.length_take]
    omega

/-- Witness for `summarize_old_preserves_tail` at `k = 1` on a concrete
three-message conversation. -/
theorem summarize_old_preserves_tail_witness :
    (2 * 1 < exCm5.messages.length)
    ∧ (((exCm5.summarize_old_context "done so far" 1).messages.length = 2 * 1 + 1)
      ∧ ((exCm5.summarize_old_context "done so far" 1).messages.drop 1
          = exCm5.messages.drop (exCm5.messages.length - 2 * 1))
      ∧ ((exCm5.summarize_old_context "done so far" 1).messages.head?
          = some (Message.mk "user"
              (.str (summaryEnvelope (exCm5.messages.length - 2 * 1) "done so far"))))
      ∧ ((exCm5.summarize_old_context "done so far" 1).system_prompt
          = exCm5.system_prompt)) :=
  ⟨by decide, summarize_old_preserves_tail exCm5 "done so far" 1 (by decide)⟩

/-- The warning clause fires at most once, and never when already latched. -/
theorem check_warn_count (t : CostTracker) :
    (t.check_warn).2.countP FireEv.isWarning ≤ if t.warning_acknowledged then 0 else 1 := by
  unfold CostTracker.check_warn
  split_ifs with h1 h2 <;>
    simp_all [List.countP_cons, List.countP_nil, FireEv.isWarning]

/-- The warning clause emits no alert fires. -/
theorem check_warn_no_alert (t : CostTracker) :
    (t.check_warn).2.countP FireEv.isAlert = 0 := by
  unfold CostTracker.check_warn
  split_ifs <;> simp_all [List.countP_cons, List.countP_nil, FireEv.isAlert]

/-- The alert clause emits no warning fires. -/
theorem check_alert_no_warn (t : CostTracker) :
    (t.check_alert).2.countP FireEv.isWarning = 0 := by
  unfold CostTracker.check_alert
  split_ifs <;> simp_all [List.countP_cons, List.countP_nil, FireEv.isWarning]

/-- The alert clause fires at most once, and never when already latched. -/
theorem check_alert_count (t : CostTracker) :
    (t.check_alert).2.countP FireEv.isAlert ≤ if t.alert_acknowledged then 0 else 1 := by
  unfold CostTracker.check_alert
  split_ifs <;> simp_all [List.countP_cons, List.countP_nil, FireEv.isAlert]

/-- The warning latch after the warning clause. -/
theorem check_warn_ack (t : CostTracker) :
    (t.check_warn).1.warning_acknowledged
      = (t.warning_acknowledged || decide (t.config.warn ≤ t.total_cost)) := by
  unfold CostTracker.check_warn
  split_ifs with h1 <;> cases hb : t.warning_acknowledged <;> simp_all

/-- The alert latch after the alert clause. -/
theorem check_alert_ack (t : CostTracker) :
    (t.check_alert).1.alert_acknowledged
      = (t.alert_acknowledged || decide (t.config.alert ≤ t.total_cost)) := by
  unfold CostTracker.check_alert
  split_ifs with h1 <;> cases hb : t.alert_acknowledged <;> simp_all

/-- The warning clause changes nothing but the warning latch. -/
theorem check_warn_rest (t : CostTracker) :
    (t.check_warn).1.config = t.config ∧ (t.check_warn).1.total_cost = t.total_cost
    ∧ (t.check_warn).1.alert_acknowledged = t.alert_acknowledged
    ∧ (t.check_warn).1.hasOnAlert = t.hasOnAlert := by
  unfold CostTracker.check_warn
  split_ifs <;> exact ⟨rfl, rfl, rfl, rfl⟩

/-- The alert clause changes nothing but the alert latch. -/
theorem check_alert_rest (t : CostTracker) :
    (t.check_alert).1.config = t.config ∧ (t.check_alert).1.total_cost = t.total_cost
    ∧ (t.check_alert).1.warning_acknowledged = t.warning_acknowledged := by
  unfold CostTracker.check_alert
  split_ifs <;> exact ⟨rfl, rfl, rfl⟩

/-- Every fire of the warning clause is at or above the warning threshold. -/
theorem check_warn_above (t : CostTracker) :
    (t.check_warn).2.all (fireAboveThreshold t.config) = true := by
  unfold CostTracker.check_warn
  split_ifs with h1 h2 <;> simp_all [fireAboveThreshold]

/-- Every fire of the alert clause is at or above the alert threshold. -/
theorem check_alert_above (t : CostTracker) :
    (t.check_alert).2.all (fireAboveThreshold t.config) = true := by
  unfold CostTracker.check_alert
  split_ifs with h1 h2 <;> simp_all [fireAboveThreshold]

/-- `_check_thresholds` emits at most one warning fire, none when latched. -/
theorem check_thresholds_warnCount (t : CostTracker) :
    (t.check_thresholds).2.countP FireEv.isWarning
      ≤ if t.warning_acknowledged then 0 else 1 := by
  have h1 := check_warn_count t
  have h2 := check_alert_no_warn (t.check_warn.1)
  unfold CostTracker.check_thresholds
  rw [List.countP_append, h2]
  simpa using h1

/-- `_check_thresholds` emits at most one alert fire, none when latched. -/
theorem check_thresholds_alertCount (t : CostTracker) :
    (t.check_thresholds).2.countP FireEv.isAlert
      ≤ if t.alert_acknowledged then 0 else 1 := by
  have h1 := check_warn_no_alert t
  have h2 := check_alert_count (t.check_warn.1)
  rw [(check_warn_rest t).2.2.1] at h2
  unfold CostTracker.check_thresholds
  rw [List.countP_append, h1]
  simpa using h2

/-- Warning latch after `_check_thresholds`. -/
theorem check_thresholds_warn_ack (t : CostTracker) :
    (t.check_thresholds).1.warning_acknowledged
      = (t.warning_acknowledged || decide (t.config.warn ≤ t.total_cost)) := by
  unfold CostTracker.check_thresholds
  rw [(check_alert_rest (t.check_warn.1)).2.2]
  exact check_warn_ack t

/-- Alert latch after `_check_thresholds`. -/
theorem check_thresholds_alert_ack (t : CostTracker) :
    (t.check_thresholds).1.alert_acknowledged
      = (t.alert_acknowledged || decide (t.config.alert ≤ t.total_cost)) := by
  unfold CostTracker.check_thresholds
  rw [check_alert_ack (t.check_warn.1), (check_warn_rest t).1, (check_warn_rest t).2.1,
    (check_warn_rest t).2.2.1]

/-- `_check_thresholds` keeps the configuration. -/
theorem check_thresholds_config (t : CostTracker) :
    (t.check_thresholds).1.config = t.config := by
  unfold CostTracker.check_thresholds
  rw [(check_alert_rest (t.check_warn.1)).1, (check_warn_rest t).1]

/-- No warning fire comes out of `_check_thresholds` below the threshold. -/
theorem check_thresholds_warnCount_zero (t : CostTracker)
    (h : ¬ (t.config.warn ≤ t.total_cost)) :
    (t.check_thresholds).2.countP FireEv.isWarning = 0 := by
  unfold CostTracker.check_thresholds
  rw [List.countP_append]
  have h2 := check_alert_no_warn (t.check_warn.1)
  have h1 : (t.check_warn).2.countP FireEv.isWarning = 0 := by
    unfold CostTracker.check_warn
    split_ifs <;> simp_all
  omega

/-- No alert fire comes out of `_check_thresholds` below the threshold. -/
theorem check_thresholds_alertCount_zero (t : CostTracker)
    (h : ¬ (t.config.alert ≤ t.total_cost)) :
    (t.check_thresholds).2.countP FireEv.isAlert = 0 := by
  unfold CostTracker.check_thresholds
  rw [List.countP_append]
  have h1 := check_warn_no_alert t
  have hcnd : ¬ ((t.check_warn.1).config.alert ≤ (t.check_warn.1).total_cost
      ∧ (t.check_warn.1).alert_acknowledged = false) := by
    rw [(check_warn_rest t).1, (check_warn_rest t).2.1]
    intro hcond
    exact h hcond.1
  have h2 : ((t.check_warn.1).check_alert).2.countP FireEv.isAlert = 0 := by
    unfold CostTracker.check_alert
    rw [if_neg hcnd]
    simp
  omega

/-- Every fire of `_check_thresholds` is at or above its own threshold. -/
theorem check_thresholds_above (t : CostTracker) :
    (t.check_thresholds).2.all (fireAboveThreshold t.config) = true := by
  unfold CostTracker.check_thresholds
  rw [List.all_append]
  have h1 := check_warn_above t
  have h2 := check_alert_above (t.check_warn.1)
  rw [(check_warn_rest t).1] at h2
  simp_all

/-- Each tracker entry point is `_check_thresholds` after mutations that
keep the configuration and both latches. -/
theorem stepEvent_eq (t : CostTracker) (e : CostEvent) :
    ∃ t' : CostTracker, t.stepEvent e = t'.check_thresholds ∧ t'.config = t.config
      ∧ t'.warning_acknowledged = t.warning_acknowledged
      ∧ t'.alert_acknowledged = t.alert_acknowledged := by
  cases e with
  | addUsage m i o =>
    refine ⟨t.applyUsage m i o, rfl, ?_, ?_, ?_⟩ <;>
      · unfold CostTracker.applyUsage
        dsimp only
        split_ifs <;> rfl
  | setInitialCost c => exact ⟨{ t with total_cost := c }, rfl, rfl, rfl, rfl⟩

/-- Bound and latched forms of the warning-fire count of one check. -/
theorem check_thresholds_warnCount_le (t : CostTracker) :
    (t.check_thresholds).2.countP FireEv.isWarning ≤ 1 := by
  have h := check_thresholds_warnCount t
  by_cases hb : t.warning_acknowledged = true
  · rw [if_pos hb] at h; omega
  · rw [if_neg hb] at h; omega

/-- A latched warning emits no further warning fires in one check. -/
theorem check_thresholds_warnCount_acked (t : CostTracker)
    (hb : t.warning_acknowledged = true) :
    (t.check_thresholds).2.countP FireEv.isWarning = 0 := by
  have h := check_thresholds_warnCount t
  rw [if_pos hb] at h
  omega

/-- Bound form of the alert-fire count of one check. -/
theorem check_thresholds_alertCount_le (t : CostTracker) :
    (t.check_thresholds).2.countP FireEv.isAlert ≤ 1 := by
  have h := check_thresholds_alertCount t
  by_cases hb : t.alert_acknowledged = true
  · rw [if_pos hb] at h; omega
  · rw [if_neg hb] at h; omega

/-- A latched alert emits no further alert fires in one check. -/
theorem check_thresholds_alertCount_acked (t : CostTracker)
    (hb : t.alert_acknowledged = true) :
    (t.check_thresholds).2.countP FireEv.isAlert = 0 := by
  have h := check_thresholds_alertCount t
  rw [if_pos hb] at h
  omega

/-- Once the warning latch is set, no later call fires the warning. -/
theorem runEvents_warn_acked (evs : List CostEvent) :
    ∀ t : CostTracker, t.warning_acknowledged = true →
      (runEvents t evs).2.countP FireEv.isWarning = 0 := by
  induction evs with
  | nil => intro t _; simp [runEvents]
  | cons e evs ih =>
    intro t hb
    obtain ⟨t', he, _, hw, _⟩ := stepEvent_eq t e
    simp only [runEvents, List.countP_append, he]
    have c1 := check_thresholds_warnCount_acked t' (by rw [hw, hb])
    have hres : (t'.check_thresholds).1.warning_acknowledged = true := by
      rw [check_thresholds_warn_ack t', hw, hb, Bool.true_or]
    have c2 := ih (t'.check_thresholds).1 hres
    omega

/-- Once the alert latch is set, no later call fires the alert. -/
theorem runEvents_alert_acked (evs : List CostEvent) :
    ∀ t : CostTracker, t.alert_acknowledged = true →
      (runEvents t evs).2.countP FireEv.isAlert = 0 := by
  induction evs with
  | nil => intro t _; simp [runEvents]
  | cons e evs ih =>
    intro t hb
    obtain ⟨t', he, _, _, ha⟩ := stepEvent_eq t e
    simp only [runEvents, List.countP_append, he]
    have c1 := check_thresholds_alertCount_acked t' (by rw [ha, hb])
    have hres : (t'.check_thresholds).1.alert_acknowledged = true := by
      rw [check_thresholds_alert_ack t', ha, hb, Bool.true_or]
    have c2 := ih (t'.check_thresholds).1 hres
    omega

/-- Over any call sequence, the warning callback fires at most once. -/
theorem runEvents_warn_le (evs : List CostEvent) :
    ∀ t : CostTracker, (runEvents t evs).2.countP FireEv.isWarning ≤ 1 := by
  induction evs with
  | nil => intro t; simp [runEvents]
  | cons e evs ih =>
    intro t
    by_cases hb : t.warning_acknowledged = true
    · have h := runEvents_warn_acked (e :: evs) t hb
      omega
    · obtain ⟨t', he, _, hw, _⟩ := stepEvent_eq t e
      simp only [runEvents, List.countP_append, he]
      by_cases hD : t'.config.warn ≤ t'.total_cost
      · have c1 := check_thresholds_warnCount_le t'
        have hres : (t'.check_thresholds).1.warning_acknowledged = true := by
          rw [check_thresholds_warn_ack t']
          simp [hD]
        have c2 := runEvents_warn_acked evs (t'.check_thresholds).1 hres
        omega
      · have c1 := check_thresholds_warnCount_zero t' hD
        have c2 := ih (t'.check_thresholds).1
        omega

/-- Over any call sequence, the alert callback fires at most once. -/
theorem runEvents_alert_le (evs : List CostEvent) :
    ∀ t : CostTracker, (runEvents t evs).2.countP FireEv.isAlert ≤ 1 := by
  induction evs with
  | nil => intro t; simp [runEvents]
  | cons e evs ih =>
    intro t
    by_cases hb : t.alert_acknowledged = true
    · have h := runEvents_alert_acked (e :: evs) t hb
      omega
    · obtain ⟨t', he, _, _, ha⟩ := stepEvent_eq t e
      simp only [runEvents, List.countP_append, he]
      by_cases hD : t'.config.alert ≤ t'.total_cost
      · have c1 := check_thresholds_alertCount_le t'
        have hres : (t'.check_thresholds).1.alert_acknowledged = true := by
          rw [check_thresholds_alert_ack t']
          simp [hD]
        have c2 := runEvents_alert_acked evs (t'.check_thresholds).1 hres
        omega
      · have c1 := check_thresholds_alertCount_zero t' hD
        have c2 := ih (t'.check_thresholds).1
        omega

/-- Over any call sequence, every fire is at or above its threshold. -/
theorem runEvents_above (evs : List CostEvent) :
    ∀ t : CostTracker,
      (runEvents t evs).2.all (fireAboveThreshold t.config) = true := by
  induction evs with
  | nil => intro t; simp [runEvents]
  | cons e evs ih =>
    intro t
    obtain ⟨t', he, hcfg, _, _⟩ := stepEvent_eq t e
    simp only [runEvents, List.all_append, he]
    have h1 := check_thresholds_above t'
    rw [hcfg] at h1
    have h2 := ih (t'.check_thresholds).1
    rw [check_thresholds_config t', hcfg] at h2
    simp [h1, h2]

/-- C2: Path confinement.  When the fully resolved form of a path input is
not inside the resolved project root, `resolve_path` raises the policy
error, and each path-taking tool surfaces it through `execute` with the
file map unchanged — no side effect happens first. -/
theorem path_confinement (env : ToolsEnv) (fs : FS) (p content old new : String)
    (h : (env.real env.projectDir).isPrefixOf (env.real (joinedPath env p)) = false) :
    (resolve_path env p = .error (.outsideProject p))
    ∧ (Tools.execute env fs "read_file" [("path", .str p)]
        = (fs, (ToolError.outsideProject p).msg, true))
    ∧ (Tools.execute env fs "write_file" [("path", .str p), ("content", .str content)]
        = (fs, (ToolError.outsideProject p).msg, true))
    ∧ (Tools.execute env fs "edit_file"
        [("path", .str p), ("old_string", .str old), ("new_string", .str new)]
        = (fs, (ToolError.outsideProject p).msg, true))
    ∧ (Tools.execute env fs "list_dir" [("path", .str p)]
        = (fs, (ToolError.outsideProject p).msg, true)) := by
  have hres : resolve_path env p = .error (.outsideProject p) := by
    unfold resolve_path
    rw [h]
    simp
  refine ⟨hres, ?_, ?_, ?_, ?_⟩ <;>
    simp [Tools.execute, executeRun, tool_read_file, tool_write_file, tool_edit_file,
      tool_list_dir, reqStr, optStr, optInt, optBool, List.lookup, hres, Except.mapError,
      bind, Except.bind]

/-- Witness for `path_confinement`: an absolute path outside the project
root of the concrete environment. -/
theorem path_confinement_witness :
    ((wsEnv.real wsEnv.projectDir).isPrefixOf
        (wsEnv.real (joinedPath wsEnv "/etc/passwd")) = false)
    ∧ ((resolve_path wsEnv "/etc/passwd" = .error (.outsideProject "/etc/passwd"))
      ∧ (Tools.execute wsEnv wsFs "read_file" [("path", .str "/etc/passwd")]
          = (wsFs, (ToolError.outsideProject "/etc/passwd").msg, true))
      ∧ (Tools.execute wsEnv wsFs "write_file"
          [("path", .str "/etc/passwd"), ("content", .str "pwned")]
          = (wsFs, (ToolError.outsideProject "/etc/passwd").msg, true))
      ∧ (Tools.execute wsEnv wsFs "edit_file"
          [("path", .str "/etc/passwd"), ("old_string", .str "a"), ("new_string", .str "b")]
          = (wsFs, (ToolError.outsideProject "/etc/passwd").msg, true))
      ∧ (Tools.execute wsEnv wsFs "list_dir" [("path", .str "/etc/passwd")]
          = (wsFs, (ToolError.outsideProject "/etc/passwd").msg, true))) :=
  ⟨by decide, path_confinement wsEnv wsFs "/etc/passwd" "pwned" "a" "b" (by decide)⟩

/-- C3: Edit ambiguity atomicity.  With `replace_all` absent (hence false)
and the old string occurring more than once, `edit_file` returns the
ambiguity error through `execute` and the file map is byte-identical. -/
theorem edit_ambiguous_no_write (env : ToolsEnv) (fs : FS) (p old new content : String)
    (hok : (env.real env.projectDir).isPrefixOf (env.real (joinedPath env p)) = true)
    (hfile : fs.lookupFile (env.real (joinedPath env p)) = some content)
    (hcount : countOcc content old > 1) :
    Tools.execute env fs "edit_file"
        [("path", .str p), ("old_string", .str old), ("new_string", .str new)]
      = (fs, (ToolError.ambiguous (countOcc content old)).msg, true) := by
  have hres : resolve_path env p = .ok (joinedPath env p) := by
    unfold resolve_path
    rw [hok]
    simp
  have hcontains : strContains content old = true := by
    unfold strContains
    simp only [bne_iff_ne, ne_eq]
    omega
  simp [Tools.execute, executeRun, tool_edit_file, reqStr, optBool, List.lookup,
    hres, hfile, hcontains, Except.mapError, hcount, bind, Except.bind]

/-- Witness for `edit_ambiguous_no_write` on the concrete file with two
copies of `x = 1`. -/
theorem edit_ambiguous_no_write_witness :
    (((wsEnv.real wsEnv.projectDir).isPrefixOf
        (wsEnv.real (joinedPath wsEnv "x.py")) = true)
      ∧ (wsFs.lookupFile (wsEnv.real (joinedPath wsEnv "x.py")) = some "x = 1\nx = 1\n")
      ∧ (countOcc "x = 1\nx = 1\n" "x = 1" > 1))
    ∧ (Tools.execute wsEnv wsFs "edit_file"
        [("path", .str "x.py"), ("old_string", .str "x = 1"), ("new_string", .str "x = 2")]
      = (wsFs, (ToolError.ambiguous (countOcc "x = 1\nx = 1\n" "x = 1")).msg, true)) :=
  ⟨⟨by decide, by decide, by decide⟩,
    edit_ambiguous_no_write wsEnv wsFs "x.py" "x = 1" "x = 2" "x = 1\nx = 1\n"
      (by decide) (by decide) (by decide)⟩

/-- C4 counterexample: with `allowed=[ls, cat]`, the command `mv a b` fails
at the whitelist layer with the not-allowed error — not with an
unconfirmed-command error as the claim states; the confirm layer is never
reached. -/
theorem bash_mv_fails_not_allowed :
    (bashPolicyCheck c4Env "mv a b" = some (.notAllowed "mv" ["ls", "cat"]))
    ∧ (bashPolicyCheck c4Env "mv a b" ≠ some (.noConfirmHandler "mv"))
    ∧ (bashPolicyCheck c4Env "mv a b" ≠ some (.notConfirmed "mv")) := by
  refine ⟨by decide, by decide, by decide⟩

/-- C4 (amended): Shell policy outcomes.  With `allowed=[ls, cat]`,
`blocked=[rm]`, `confirm=[mv]` and no confirmation callback, `ls` and
`cat` pass the policy and are executed; `rm -rf .` fails blocked,
`echo hi` fails not-allowed, and `mv a b` fails not-allowed (the whitelist
layer precedes the confirm layer).  Each failing command fails identically
under every subprocess behaviour, hence before any subprocess starts. -/
theorem bash_policy_outcomes :
    (bashPolicyCheck c4Env "ls" = none)
    ∧ (bashPolicyCheck c4Env "cat" = none)
    ∧ (tool_bash c4Env wsFs [("command", .str "ls")] = .ok (wsFs, "[no output]"))
    ∧ (tool_bash c4Env wsFs [("command", .str "cat")] = .ok (wsFs, "[no output]"))
    ∧ (∀ rs : String → Nat → ShellResult,
        tool_bash { c4Env with runShell := rs } wsFs [("command", .str "rm -rf .")]
          = .error (.toolErr (.blockedCmd "rm")))
    ∧ (∀ rs : String → Nat → ShellResult,
        tool_bash { c4Env with runShell := rs } wsFs [("command", .str "echo hi")]
          = .error (.toolErr (.notAllowed "echo" ["ls", "cat"])))
    ∧ (∀ rs : String → Nat → ShellResult,
        tool_bash { c4Env with runShell := rs } wsFs [("command", .str "mv a b")]
          = .error (.toolErr (.notAllowed "mv" ["ls", "cat"]))) := by
  refine ⟨by decide, by decide, by rfl, by rfl, fun rs => rfl, fun rs => rfl,
    fun rs => rfl⟩

/-- C9: Tool dispatch is total.  `execute` is a total function into
`(content, is_error)` pairs by construction (every tool body's raised
exception is converted by its handlers); in particular a tool name with no
`tool_<name>` implementation yields the unknown-tool error pair and the
file map is untouched. -/
theorem execute_unknown_tool (env : ToolsEnv) (fs : FS) (name : String)
    (input : ToolInput) (h : ¬ name ∈ knownToolNames) :
    Tools.execute env fs name input = (fs, "Unknown tool: " ++ name, true) := by
  simp only [knownToolNames, List.mem_cons, List.not_mem_nil, or_false] at h
  push_neg at h
  obtain ⟨h1, h2, h3, h4, h5, h6, h7, h8, h9, h10⟩ := h
  unfold Tools.execute
  rw [if_neg h1, if_neg h2, if_neg h3, if_neg h4, if_neg h5, if_neg h6, if_neg h7,
    if_neg h8, if_neg h9, if_neg h10]

/-- Witness for `execute_unknown_tool` at a concrete unimplemented name. -/
theorem execute_unknown_tool_witness :
    (¬ "frobnicate" ∈ knownToolNames)
    ∧ (Tools.execute wsEnv wsFs "frobnicate" []
        = (wsFs, "Unknown tool: " ++ "frobnicate", true)) :=
  ⟨by decide, execute_unknown_tool wsEnv wsFs "frobnicate" [] (by decide)⟩

/-- `orderedInsert` prepends when the element is below the whole list. -/
theorem orderedInsert_of_forall {α : Type} (r : α → α → Prop) [DecidableRel r]
    (a : α) (l : List α) (h : ∀ x ∈ l, r a x) :
    List.orderedInsert r a l = a :: l := by
  cases l with
  | nil => rfl
  | cons b t => simp [List.orderedInsert, h b (by simp)]

/-- Filtering commutes with ordered insertion into a sorted list. -/
theorem filter_orderedInsert {α : Type} (r : α → α → Prop) [DecidableRel r]
    [IsTrans α r] (p : α → Bool) (a : α) (l : List α) (hs : l.Sorted r) :
    (List.orderedInsert r a l).filter p
      = if p a then List.orderedInsert r a (l.filter p) else l.filter p := by
  induction l with
  | nil =>
    by_cases hpa : p a <;> simp [List.orderedInsert, List.filter, hpa]
  | cons b t ih =>
    have hst : t.Sorted r := List.Sorted.of_cons hs
    by_cases hab : r a b
    · by_cases hpa : p a
      · by_cases hpb : p b
        · simp [List.orderedInsert, hab, List.filter, hpa, hpb]
        · have hall : ∀ x ∈ t.filter p, r a x := by
            intro x hx
            have hxt : x ∈ t := List.mem_of_mem_filter hx
            exact Trans.trans hab (List.rel_of_sorted_cons hs x hxt)
          simp [List.orderedInsert, hab, List.filter, hpa, hpb,
            orderedInsert_of_forall r a _ hall]
      · by_cases hpb : p b <;>
          simp [List.orderedInsert, hab, List.filter, hpa, hpb]
    · by_cases hpa : p a
      · by_cases hpb : p b <;>
          simp [List.orderedInsert, hab, List.filter, hpa, hpb, ih hst]
      · by_cases hpb : p b <;>
          simp [List.orderedInsert, hab, List.filter, hpa, hpb, ih hst]

/-- Filtering commutes with insertion sort. -/
theorem filter_insertionSort {α : Type} (r : α → α → Prop) [DecidableRel r]
    [IsTrans α r] [IsTotal α r] (p : α → Bool) (l : List α) :
    (List.insertionSort r l).filter p = List.insertionSort r (l.filter p) := by
  induction l with
  | nil => rfl
  | cons x l ih =>
    simp only [List.insertionSort]
    rw [filter_orderedInsert r p x _ (List.sorted_insertionSort r l)]
    by_cases hpx : p x <;> simp [List.filter, hpx, ih]

/-- C10: `list_dir` hides dotfiles.  Under a successful resolution the
tool returns the `listDirCore` rendering of the directory's entries; that
rendering is unchanged when every hidden entry is removed beforehand (so
no entry whose name starts with `.` is ever shown, in particular
`.autopilot`), and when every entry is hidden the result is the empty
directory marker. -/
theorem list_dir_hides_dotfiles (env : ToolsEnv) (fs : FS) (p : String)
    (entries : List DirEntry)
    (hok : (env.real env.projectDir).isPrefixOf (env.real (joinedPath env p)) = true)
    (hdir : env.listdir (env.real (joinedPath env p)) = some entries) :
    (Tools.execute env fs "list_dir" [("path", .str p)]
        = (fs, listDirCore entries, false))
    ∧ (listDirCore entries = listDirCore (entries.filter (fun e => ! hiddenEntry e)))
    ∧ ((∀ e ∈ entries, hiddenEntry e = true) → listDirCore entries = "[empty directory]") := by
  have hres : resolve_path env p = .ok (joinedPath env p) := by
    unfold resolve_path
    rw [hok]
    simp
  refine ⟨?_, ?_, ?_⟩
  · simp [Tools.execute, executeRun, tool_list_dir, optStr, List.lookup, hres, hdir,
      Except.mapError, bind, Except.bind]
  · unfold listDirCore
    rw [show sortEntries (entries.filter (fun e => ! hiddenEntry e))
          = List.insertionSort (fun a b => a.name ≤ b.name)
              (entries.filter (fun e => ! hiddenEntry e)) from rfl,
      ← filter_insertionSort (fun a b => a.name ≤ b.name) (fun e => ! hiddenEntry e) entries]
    rw [show sortEntries entries
          = List.insertionSort (fun a b => a.name ≤ b.name) entries from rfl]
    rw [List.filter_filter]
    simp
  · intro hall
    unfold listDirCore
    have hnil : (sortEntries entries).filter (fun e => ! hiddenEntry e) = [] := by
      rw [List.filter_eq_nil_iff]
      intro e he
      have : e ∈ entries := ((List.perm_insertionSort _ entries).mem_iff).mp he
      simp [hall e this]
    rw [hnil]
    simp

/-- Witness for `list_dir_hides_dotfiles`: the concrete root holds only
`.autopilot`, so the listing is the empty-directory marker. -/
theorem list_dir_hides_dotfiles_witness :
    (((wsEnv.real wsEnv.projectDir).isPrefixOf
        (wsEnv.real (joinedPath wsEnv "/proj")) = true)
      ∧ (wsEnv.listdir (wsEnv.real (joinedPath wsEnv "/proj"))
          = some [⟨".autopilot", true, 0⟩]))
    ∧ ((Tools.execute wsEnv wsFs "list_dir" [("path", .str "/proj")]
        = (wsFs, listDirCore [⟨".autopilot", true, 0⟩], false))
      ∧ (listDirCore [⟨".autopilot", true, 0⟩]
          = listDirCore (List.filter (fun e => ! hiddenEntry e) [⟨".autopilot", true, 0⟩]))
      ∧ ((∀ e ∈ [DirEntry.mk ".autopilot" true 0], hiddenEntry e = true)
          → listDirCore [⟨".autopilot", true, 0⟩] = "[empty directory]")) :=
  ⟨⟨by decide, by decide⟩,
    list_dir_hides_dotfiles wsEnv wsFs "/proj" [⟨".autopilot", true, 0⟩]
      (by decide) (by decide)⟩

/-- `_check_thresholds` never changes the total. -/
theorem check_thresholds_total (t : CostTracker) :
    (t.check_thresholds).1.total_cost = t.total_cost := by
  unfold CostTracker.check_thresholds
  rw [(check_alert_rest (t.check_warn.1)).2.1, (check_warn_rest t).2.1]

/-- Whatever the special handling does, the collected result keeps the
use's id. -/
theorem execOneTool_id (env : ToolsEnv) (onHelp : Option (String → String))
    (s : TurnState) (u : ToolUseBlk) :
    (execOneTool env onHelp s u).2.tool_use_id = u.id := by
  unfold execOneTool
  split_ifs
  · rfl
  · cases onHelp with
    | none => rfl
    | some cb =>
      dsimp only
      split_ifs <;> rfl
  · rfl

/-- The collected results carry the executed uses' ids, in order. -/
theorem execToolsGo_ids (env : ToolsEnv) (onHelp : Option (String → String))
    (l : List ToolUseBlk) :
    ∀ s : TurnState,
      ((execToolsGo env onHelp s l).2.map (fun r => r.tool_use_id)) = l.map (fun u => u.id) := by
  induction l with
  | nil => intro s; rfl
  | cons u rest ih => intro s; simp [execToolsGo, ih, execOneTool_id]

/-- C1 counterexample: with `max_tool_calls_per_turn = 1` and an assistant
message holding tool uses `i1, i2`, the next user message carries a
tool_result for `i1` only — not for exactly the assistant's id set, so the
pairing claim fails under truncation. -/
theorem tool_result_pairing_counterexample :
    (resultIdsOfLast (dispatchTurn cx1Cfg wsEnv none cx1Turn ({} : ContextManager) cx1Blocks).2
        = some ["i1"])
    ∧ (resultIdsOfLast (dispatchTurn cx1Cfg wsEnv none cx1Turn ({} : ContextManager) cx1Blocks).2
        ≠ some ((extractToolUses cx1Blocks).map (fun u => u.id))) := by
  constructor
  · rfl
  · have h1 : resultIdsOfLast
        (dispatchTurn cx1Cfg wsEnv none cx1Turn ({} : ContextManager) cx1Blocks).2
        = some ["i1"] := rfl
    have h2 : (extractToolUses cx1Blocks).map (fun u => u.id) = ["i1", "i2"] := rfl
    rw [h1, h2]
    decide

/-- C1 (amended): Tool-result pairing.  For every assistant message with
at least one tool_use block, the orchestrator appends exactly one user
message whose tool_result blocks carry, in order, the ids of the first
`max_tool_calls_per_turn` tool_use blocks; when the assistant emitted no
more than that bound, these are exactly all of its tool_use ids in
order. -/
theorem tool_result_pairing (cfg : OrchConfig) (env : ToolsEnv)
    (onHelp : Option (String → String)) (s : TurnState) (cm : ContextManager)
    (blocks : List Block) (h : extractToolUses blocks ≠ []) :
    ∃ rs : List ToolResultRec,
      ((dispatchTurn cfg env onHelp s cm blocks).2.messages
        = cm.messages ++ [Message.mk "assistant" (.blocks blocks),
            Message.mk "user" (.blocks (rs.map toolResultBlock))])
      ∧ (rs.map (fun r => r.tool_use_id)
          = ((extractToolUses blocks).map (fun u => u.id)).take cfg.max_tool_calls_per_turn) := by
  refine ⟨(executeTools cfg env onHelp s (extractToolUses blocks)).2, ?_, ?_⟩
  · unfold dispatchTurn
    rw [if_neg (by simp [List.isEmpty_iff, h])]
    simp [ContextManager.add_assistant_message, ContextManager.add_tool_results,
      ContextManager.update_token_estimate]
  · unfold executeTools
    rw [execToolsGo_ids]
    by_cases hl : (extractToolUses blocks).length > cfg.max_tool_calls_per_turn
    · rw [if_pos hl, List.map_take]
    · rw [if_neg hl, List.take_of_length_le]
      simp only [List.length_map]
      omega

/-- Witness for `tool_result_pairing` under the default per-turn budget,
where both tool uses are kept. -/
theorem tool_result_pairing_witness :
    (extractToolUses cx1Blocks ≠ [])
    ∧ (∃ rs : List ToolResultRec,
        ((dispatchTurn ({} : OrchConfig) wsEnv none cx1Turn ({} : ContextManager)
            cx1Blocks).2.messages
          = ({} : ContextManager).messages ++ [Message.mk "assistant" (.blocks cx1Blocks),
              Message.mk "user" (.blocks (rs.map toolResultBlock))])
        ∧ (rs.map (fun r => r.tool_use_id)
            = ((extractToolUses cx1Blocks).map (fun u => u.id)).take
                ({} : OrchConfig).max_tool_calls_per_turn)) :=
  ⟨by simp [extractToolUses, cx1Blocks],
    tool_result_pairing {} wsEnv none cx1Turn {} cx1Blocks
      (by simp [extractToolUses, cx1Blocks])⟩

/-- C7 counterexample: resuming from a checkpoint whose cost (15) crossed
the warning threshold (10) leaves the warning latch SET and fires the
warning callback — `resume` never calls `reset_alerts`, so the latches
are not cleared before the loop proceeds. -/
theorem resume_latches_not_reset :
    ((Orchestrator.resume "/proj" none {} c7St (some c7Chk)).map
        (fun r => r.1.cost_tracker.warning_acknowledged) = some true)
    ∧ ((Orchestrator.resume "/proj" none {} c7St (some c7Chk)).map
        (fun r => (r.1.cost_tracker.alert_acknowledged, r.2))
        = some (false, [FireEv.warning 15])) := by
  exact ⟨rfl, rfl⟩

/-- C7 (amended): Resume semantics.  After `resume` on a loaded
checkpoint, the conversation messages, Token Usage and total cost equal
the checkpointed values, the task description and completed list are
adopted, and the system prompt is rebuilt from the current completed-task
list and learnings.  The cost latches are NOT reset: `set_initial_cost`
re-evaluates the thresholds, so each latch ends up set exactly when it
was already set or the restored cost has crossed its threshold (firing
the callback then). -/
theorem resume_restores_and_refires (project_dir : String) (learnings : Option String)
    (cfg : OrchConfig) (st : OrchState) (chk : CheckpointRec) :
    ((Orchestrator.resume project_dir learnings cfg st (some chk)).map
        (fun r => r.1.context.messages) = some chk.context.messages)
    ∧ ((Orchestrator.resume project_dir learnings cfg st (some chk)).map
        (fun r => r.1.token_usage) = some (tokenUsageFromDict chk.token_usage))
    ∧ ((Orchestrator.resume project_dir learnings cfg st (some chk)).map
        (fun r => r.1.cost_tracker.total_cost) = some chk.total_cost)
    ∧ ((Orchestrator.resume project_dir learnings cfg st (some chk)).map
        (fun r => r.1.task_description) = some chk.task_description)
    ∧ ((Orchestrator.resume project_dir learnings cfg st (some chk)).map
        (fun r => r.1.completed_tasks) = some chk.completed_tasks)
    ∧ ((Orchestrator.resume project_dir learnings cfg st (some chk)).map
        (fun r => r.1.context.system_prompt)
        = some (buildSystemPrompt project_dir chk.task_description chk.completed_tasks
            learnings))
    ∧ ((Orchestrator.resume project_dir learnings cfg st (some chk)).map
        (fun r => r.1.cost_tracker.warning_acknowledged)
        = some (st.cost_tracker.warning_acknowledged
            || decide (st.cost_tracker.config.warn ≤ chk.total_cost)))
    ∧ ((Orchestrator.resume project_dir learnings cfg st (some chk)).map
        (fun r => r.1.cost_tracker.alert_acknowledged)
        = some (st.cost_tracker.alert_acknowledged
            || decide (st.cost_tracker.config.alert ≤ chk.total_cost)))
    ∧ (Orchestrator.resume project_dir learnings cfg st none = none) := by
  refine ⟨rfl, rfl, ?_, rfl, rfl, rfl, ?_, ?_, rfl⟩
  · show some ((CostTracker.set_initial_cost st.cost_tracker chk.total_cost).1.total_cost)
      = some chk.total_cost
    unfold CostTracker.set_initial_cost
    rw [check_thresholds_total]
  · show some ((CostTracker.set_initial_cost st.cost_tracker
        chk.total_cost).1.warning_acknowledged) = _
    unfold CostTracker.set_initial_cost
    rw [check_thresholds_warn_ack]
  · show some ((CostTracker.set_initial_cost st.cost_tracker
        chk.total_cost).1.alert_acknowledged) = _
    unfold CostTracker.set_initial_cost
    rw [check_thresholds_alert_ack]

/-- C8: Checkpoint round-trip.  `save` then `restore_context` yields a
Context Manager whose system prompt and message list equal the pre-save
ones, and `usage` and `cost` equal the checkpointed values.  On a manager
whose cached estimate is consistent (as every mutator leaves it), the
recomputed estimate equals the saved one — within the claimed ±1 token
per message — and `from_dict` always recomputes the estimate from the
content, ignoring the saved figure. -/
theorem checkpoint_roundtrip (cm : ContextManager) (usage : TokenUsage) (cost : ℚ)
    (task timestamp : String) (phase : Option String) (completed : List String)
    (maxTok : Nat)
    (h : cm._estimated_tokens = computeEstimate cm.system_prompt cm.messages) :
    ((CheckpointManager.restore_context
        (CheckpointManager.save cm usage cost task timestamp phase completed)
        maxTok).1.system_prompt = cm.system_prompt)
    ∧ ((CheckpointManager.restore_context
        (CheckpointManager.save cm usage cost task timestamp phase completed)
        maxTok).1.messages = cm.messages)
    ∧ ((CheckpointManager.restore_context
        (CheckpointManager.save cm usage cost task timestamp phase completed)
        maxTok).2.1 = usage)
    ∧ ((CheckpointManager.restore_context
        (CheckpointManager.save cm usage cost task timestamp phase completed)
        maxTok).2.2.1 = cost)
    ∧ ((CheckpointManager.restore_context
        (CheckpointManager.save cm usage cost task timestamp phase completed)
        maxTok).1._estimated_tokens
      = (CheckpointManager.save cm usage cost task timestamp phase
          completed).context.estimated_tokens)
    ∧ (((CheckpointManager.restore_context
          (CheckpointManager.save cm usage cost task timestamp phase completed)
          maxTok).1._estimated_tokens : Int)
        - ((CheckpointManager.save cm usage cost task timestamp phase
            completed).context.estimated_tokens : Int) ≤ cm.messages.length
      ∧ ((CheckpointManager.save cm usage cost task timestamp phase
            completed).context.estimated_tokens : Int)
        - ((CheckpointManager.restore_context
            (CheckpointManager.save cm usage cost task timestamp phase completed)
            maxTok).1._estimated_tokens : Int) ≤ cm.messages.length)
    ∧ (∀ d : CtxDict, ∀ m : Nat,
        (ContextManager.from_dict d m)._estimated_tokens
          = computeEstimate d.system_prompt d.messages) := by
  have h5 : (CheckpointManager.restore_context
      (CheckpointManager.save cm usage cost task timestamp phase completed)
      maxTok).1._estimated_tokens
      = (CheckpointManager.save cm usage cost task timestamp phase
          completed).context.estimated_tokens := by
    show computeEstimate cm.system_prompt cm.messages = cm._estimated_tokens
    exact h.symm
  refine ⟨rfl, rfl, rfl, rfl, h5, ⟨?_, ?_⟩, fun d m => rfl⟩ <;> omega

/-- Witness for `checkpoint_roundtrip` on a concrete consistent manager. -/
theorem checkpoint_roundtrip_witness :
    (ws8Cm._estimated_tokens = computeEstimate ws8Cm.system_prompt ws8Cm.messages)
    ∧ (((CheckpointManager.restore_context
          (CheckpointManager.save ws8Cm ⟨1, 2, 3, 4⟩ 5 "task" "ts" none ["done"])
          1000).1.system_prompt = ws8Cm.system_prompt)
      ∧ ((CheckpointManager.restore_context
          (CheckpointManager.save ws8Cm ⟨1, 2, 3, 4⟩ 5 "task" "ts" none ["done"])
          1000).1.messages = ws8Cm.messages)
      ∧ ((CheckpointManager.restore_context
          (CheckpointManager.save ws8Cm ⟨1, 2, 3, 4⟩ 5 "task" "ts" none ["done"])
          1000).2.1 = (⟨1, 2, 3, 4⟩ : TokenUsage))
      ∧ ((CheckpointManager.restore_context
          (CheckpointManager.save ws8Cm ⟨1, 2, 3, 4⟩ 5 "task" "ts" none ["done"])
          1000).2.2.1 = (5 : ℚ))
      ∧ ((CheckpointManager.restore_context
          (CheckpointManager.save ws8Cm ⟨1, 2, 3, 4⟩ 5 "task" "ts" none ["done"])
          1000).1._estimated_tokens
        = (CheckpointManager.save ws8Cm ⟨1, 2, 3, 4⟩ 5 "task" "ts" none
            ["done"]).context.estimated_tokens)
      ∧ (((CheckpointManager.restore_context
            (CheckpointManager.save ws8Cm ⟨1, 2, 3, 4⟩ 5 "task" "ts" none ["done"])
            1000).1._estimated_tokens : Int)
          - ((CheckpointManager.save ws8Cm ⟨1, 2, 3, 4⟩ 5 "task" "ts" none
              ["done"]).context.estimated_tokens : Int) ≤ ws8Cm.messages.length
        ∧ ((CheckpointManager.save ws8Cm ⟨1, 2, 3, 4⟩ 5 "task" "ts" none
              ["done"]).context.estimated_tokens : Int)
          - ((CheckpointManager.restore_context
              (CheckpointManager.save ws8Cm ⟨1, 2, 3, 4⟩ 5 "task" "ts" none ["done"])
              1000).1._estimated_tokens : Int) ≤ ws8Cm.messages.length)
      ∧ (∀ d : CtxDict, ∀ m : Nat,
          (ContextManager.from_dict d m)._estimated_tokens
            = computeEstimate d.system_prompt d.messages)) :=
  ⟨rfl, checkpoint_roundtrip ws8Cm ⟨1, 2, 3, 4⟩ 5 "task" "ts" none ["done"] 1000 rfl⟩

/-- C6: Threshold latches.  Over any sequence of `add_usage` and
`set_initial_cost` calls on a freshly constructed `CostTracker` — including
a `set_initial_cost(c)` with `c ≥ warn` anywhere in the sequence — the
warning callback is invoked at most once, the alert callback at most once,
and no callback is invoked while the total cost is strictly below its
threshold. -/
theorem cost_threshold_latches (cfg : CostConfig) (pricing : List (String × Pricing))
    (hw ha : Bool) (evs : List CostEvent) :
    ((runEvents (mkCostTracker cfg pricing hw ha) evs).2.countP FireEv.isWarning ≤ 1)
    ∧ ((runEvents (mkCostTracker cfg pricing hw ha) evs).2.countP FireEv.isAlert ≤ 1)
    ∧ ((runEvents (mkCostTracker cfg pricing hw ha) evs).2.all
        (fireAboveThreshold cfg) = true) := by
  refine ⟨?_, ?_, ?_⟩
  · exact runEvents_warn_le evs (mkCostTracker cfg pricing hw ha)
  · exact runEvents_alert_le evs (mkCostTracker cfg pricing hw ha)
  · have h := runEvents_above evs (mkCostTracker cfg pricing hw ha)
    simpa [mkCostTracker] using h

end Autopilot
